import Mathlib

set_option maxHeartbeats 1000000
set_option maxRecDepth 8192

/-!
Shallow embedding of the emoji_pack_plugin search pipeline (src/__init__.py).

The plugin exposes two sandbox methods:
* `search_emoji` — builds a request via `fetch_emoji_images`, formats the
  upstream JSON via `format_result`, and converts every exception raised
  inside into a descriptive return string;
* `get_emoji_image` — fetches raw bytes for a URL and re-raises every
  failure as `ValueError`.

Python exceptions are modelled as `Except` errors; raised exceptions that a
caller catches are matched on explicitly.  The network is a parameter: an
arbitrary function from the constructed request to an upstream behaviour.
-/

/-- Configuration snapshot (class EmojiSearchConfig): API_URL, USER_ID,
USER_KEY, EXTRA_KEYWORD, TIMEOUT. -/
structure Config where
  API_URL : String
  USER_ID : String
  USER_KEY : String
  EXTRA_KEYWORD : String
  TIMEOUT : Int
deriving DecidableEq

/-- Default values of EmojiSearchConfig as declared in the source. -/
def defaultConfig : Config :=
  { API_URL := "https://cn.apihz.cn/api/img/apihzbqbbaidu.php"
    USER_ID := "88888888"
    USER_KEY := "88888888"
    EXTRA_KEYWORD := ""
    TIMEOUT := 10 }

/-- A dynamically typed JSON scalar as it reaches `format_result`: the
pagination fields and the status code of the upstream payload may be an
int or a string in the decoded dict. -/
inductive JVal where
  | jint : Int → JVal
  | jstr : String → JVal
deriving DecidableEq

/-- Rendering of a JSON scalar inside a Python f-string (str()). -/
def JVal.render : JVal → String
  | .jint n => toString n
  | .jstr s => s

/-- The decoded upstream JSON dict as `format_result` reads it.  Each field
is `none` when the key is absent from the dict (Python would raise
`KeyError` on direct subscription, and `dict.get` would take the default). -/
structure Payload where
  code : Option JVal
  msg : Option String
  page : Option JVal
  maxpage : Option JVal
  count : Option JVal
  res : Option (List String)
deriving DecidableEq

/-- An exception raised by `format_result`: `KeyError(key)` from a missing
dict key, or `ValueError(message)`. -/
inductive PyError where
  | keyError : String → PyError
  | valueError : String → PyError
deriving DecidableEq

/-- Python `str()` of the exception, as interpolated into the message that
`search_emoji` returns (`str(KeyError(k))` is the repr `'k'`). -/
def PyError.str : PyError → String
  | .keyError k => "'" ++ k ++ "'"
  | .valueError m => m

/-- HTTP method of the outbound search request. -/
inductive Method where
  | get
  | post
deriving DecidableEq

/-- The outbound HTTP request constructed by `fetch_emoji_images`:
`client.post(config.API_URL, params=params)` sends `params` as query
parameters; no form body is ever attached. -/
structure Request where
  method : Method
  url : String
  queryParams : List (String × String)
  formData : List (String × String)
  timeout : Int
deriving DecidableEq

/-- UTF-8 encoding of one character, as urllib quotes the UTF-8 bytes of
the string. -/
def utf8Bytes (c : Char) : List Nat :=
  let n := c.toNat
  if n < 128 then [n]
  else if n < 2048 then [192 + n / 64, 128 + n % 64]
  else if n < 65536 then [224 + n / 4096, 128 + (n / 64) % 64, 128 + n % 64]
  else [240 + n / 262144, 128 + (n / 4096) % 64, 128 + (n / 64) % 64, 128 + n % 64]

/-- Bytes `urllib.parse.quote` leaves unescaped with the default
`safe='/'`: ALPHA, DIGIT, and the marks `_ . - ~ /`. -/
def isSafeByte (b : Nat) : Bool :=
  (65 ≤ b && b ≤ 90) || (97 ≤ b && b ≤ 122) || (48 ≤ b && b ≤ 57) ||
    b == 95 || b == 46 || b == 45 || b == 126 || b == 47

/-- Uppercase hexadecimal digit. -/
def hexDigit (n : Nat) : Char :=
  if n < 10 then Char.ofNat (48 + n) else Char.ofNat (55 + n)

/-- Percent-encoding of one byte under `urllib.parse.quote`. -/
def quoteByte (b : Nat) : List Char :=
  if isSafeByte b then [Char.ofNat b] else ['%', hexDigit (b / 16), hexDigit (b % 16)]

/-- `urllib.parse.quote(s)`: percent-encode every unsafe byte of the UTF-8
encoding of `s`. -/
def quote (s : String) : String :=
  String.mk (((s.data.map utf8Bytes).flatten.map quoteByte).flatten)

/-- Whitespace characters removed by Python `str.strip()` (the ASCII ones;
exotic Unicode space characters are not modelled). -/
def isPySpace (c : Char) : Bool :=
  c == ' ' || c == '\t' || c == '\n' || c == '\r' ||
    c == Char.ofNat 11 || c == Char.ofNat 12

/-- Python `str.strip()`: drop leading and trailing whitespace. -/
def pyStrip (s : String) : String :=
  String.mk (((s.data.dropWhile isPySpace).reverse.dropWhile isPySpace).reverse)

/-- `fetch_emoji_images(keyword, limit, page)` up to the point where the
HTTP call is issued: the request it constructs.  The keyword handling is
`full_keyword = f"{keyword} {config.EXTRA_KEYWORD}".strip()` followed by
`encoded_keyword = quote(full_keyword)`; the params dict is
`{id, key, words, limit, page}` and is sent as query parameters of a POST. -/
def fetch_emoji_images (cfg : Config) (keyword : String) (limit : Int) (page : Int) : Request :=
  let full_keyword := pyStrip (keyword ++ " " ++ cfg.EXTRA_KEYWORD)
  let encoded_keyword := quote full_keyword
  { method := Method.post
    url := cfg.API_URL
    queryParams := [("id", cfg.USER_ID), ("key", cfg.USER_KEY),
                    ("words", encoded_keyword),
                    ("limit", toString limit), ("page", toString page)]
    formData := []
    timeout := cfg.TIMEOUT }

/-- Value of a query parameter of a request (first binding wins, as in a
Python dict built from distinct literal keys). -/
def paramValue (req : Request) (name : String) : Option String :=
  (req.queryParams.find? (fun p => p.fst == name)).map Prod.snd

/-- `random.choice(l)` with the random draw made explicit: `r` is the
drawn index (any natural, reduced modulo the length).  Only reached on a
non-empty list, since `format_result` tests `if not res_list` first. -/
def randomChoice (l : List String) (r : Nat) : String :=
  l.getD (r % l.length) ""

/-- `format_result(data)`: raises (returns `.error`) `KeyError` for each
directly subscripted missing key in source order (`code`, `res`, `count`,
`maxpage`, `page`), `ValueError("API返回错误: …")` when `code != 200` (with
`msg` defaulted via `data.get`), `ValueError("没有找到匹配的表情包")` when
`res` is empty, and otherwise returns the formatted string embedding a
`random.choice` of the result list. -/
def format_result (data : Payload) (r : Nat) : Except PyError String :=
  match data.code with
  | none => Except.error (PyError.keyError "code")
  | some c =>
    if c ≠ JVal.jint 200 then
      Except.error (PyError.valueError ("API返回错误: " ++ data.msg.getD "未知错误"))
    else
      match data.res with
      | none => Except.error (PyError.keyError "res")
      | some res_list =>
        if res_list.isEmpty then
          Except.error (PyError.valueError "没有找到匹配的表情包")
        else
          match data.count with
          | none => Except.error (PyError.keyError "count")
          | some count =>
            match data.maxpage with
            | none => Except.error (PyError.keyError "maxpage")
            | some maxpage =>
              match data.page with
              | none => Except.error (PyError.keyError "page")
              | some page =>
                Except.ok ("找到" ++ count.render ++ "个表情包，当前第" ++
                  page.render ++ "/" ++ maxpage.render ++ "页\n随机选择一个: " ++
                  randomChoice res_list r)

/-- Behaviour of the upstream search call for one request: a decoded JSON
payload, or one of the exceptions `search_emoji` catches —
`httpx.RequestError`, `httpx.HTTPStatusError` (carrying
`response.status_code`), a JSON decode `ValueError`, or any other
exception. -/
inductive FetchRes where
  | ok : Payload → FetchRes
  | requestError : String → FetchRes
  | httpStatusError : Nat → FetchRes
  | decodeError : String → FetchRes
  | otherExc : String → FetchRes

/-- `search_emoji(ctx, keyword)`: calls `fetch_emoji_images(keyword)` with
default `limit=1, page=1`, formats the data, and maps every caught
exception to the corresponding return string.  A JSON decode `ValueError`
falls into the same `(KeyError, ValueError)` clause as the
`format_result` exceptions. -/
def search_emoji (cfg : Config) (keyword : String) (upstream : Request → FetchRes)
    (r : Nat) : String :=
  match upstream (fetch_emoji_images cfg keyword 1 1) with
  | FetchRes.ok data =>
    match format_result data r with
    | Except.ok s => s
    | Except.error e => "表情包数据解析失败: " ++ e.str
  | FetchRes.requestError e => "表情包搜索失败，无法连接到服务: " ++ e
  | FetchRes.httpStatusError code => "表情包搜索失败，服务返回错误: " ++ toString code
  | FetchRes.decodeError e => "表情包数据解析失败: " ++ e
  | FetchRes.otherExc e => "表情包搜索发生未知错误: " ++ e

/-- Behaviour of the image download (`client.get(image_url)` plus
`raise_for_status` and `.content`) for one URL and timeout. -/
inductive GetRes where
  | ok : List Nat → GetRes
  | requestError : String → GetRes
  | httpStatusError : Nat → GetRes
  | otherExc : String → GetRes

/-- `get_emoji_image(ctx, image_url)`: returns the bytes on success and
re-raises every caught failure as `ValueError` with a download-specific
message — modelled as `Except.error` since the exception leaves the
function. -/
def get_emoji_image (cfg : Config) (image_url : String)
    (transport : String → Int → GetRes) : Except String (List Nat) :=
  match transport image_url cfg.TIMEOUT with
  | GetRes.ok bytes => Except.ok bytes
  | GetRes.requestError e => Except.error ("无法下载图片: " ++ e)
  | GetRes.httpStatusError code =>
      Except.error ("图片下载失败，HTTP状态码: " ++ toString code)
  | GetRes.otherExc e => Except.error ("图片下载发生未知错误: " ++ e)

/-- A string returned by one of the four `except` clauses of
`search_emoji` — a handled failure rendering, as opposed to a
`format_result` success. -/
def handledFailure (s : String) : Prop :=
  (∃ t, s = "表情包搜索失败，无法连接到服务: " ++ t) ∨
  (∃ t, s = "表情包搜索失败，服务返回错误: " ++ t) ∨
  (∃ t, s = "表情包数据解析失败: " ++ t) ∨
  (∃ t, s = "表情包搜索发生未知错误: " ++ t)

/-- A successful two-result payload, used as concrete test data. -/
def payload2 : Payload :=
  ⟨some (JVal.jint 200), some "ok", some (JVal.jint 1), some (JVal.jint 1),
   some (JVal.jint 2), some ["a.jpg", "b.jpg"]⟩

/-- A code-200 payload whose result list is empty. -/
def payloadNoRes : Payload :=
  ⟨some (JVal.jint 200), some "ok", some (JVal.jint 1), some (JVal.jint 1),
   some (JVal.jint 0), some []⟩

/-- A keyword of 101 characters. -/
def k101 : String := String.mk (List.replicate 101 'a')

example : quote "a b" = "a%20b" := by rfl
example : quote "开心" = "%E5%BC%80%E5%BF%83" := by rfl
example : format_result payload2 0 =
    Except.ok "找到2个表情包，当前第1/1页\n随机选择一个: a.jpg" := by rfl

/-- The element `random.choice` picks is always a member of the list when
the list is non-empty. -/
theorem randomChoice_mem (l : List String) (r : Nat) (h : l ≠ []) :
    randomChoice l r ∈ l := by
  have hlen : 0 < l.length := List.length_pos.mpr h
  have hlt : r % l.length < l.length := Nat.mod_lt _ hlen
  unfold randomChoice
  rw [List.getD_eq_getElem?_getD, List.getElem?_eq_getElem hlt]
  exact List.getElem_mem hlt

/-- C1 counterexample: for a valid request whose upstream payload has
code 200 and an empty res list, `format_result` raises
`ValueError("没有找到匹配的表情包")` — the outcome is produced by raising —
and `search_emoji` surfaces it through the same `(KeyError, ValueError)`
failure clause as parse errors, as the parse-failure string; so the
outcome is not a distinct non-error value propagated without raising. -/
theorem C1_cex :
    format_result payloadNoRes 0 =
      Except.error (PyError.valueError "没有找到匹配的表情包") ∧
    search_emoji defaultConfig "cat" (fun _ => FetchRes.ok payloadNoRes) 0 =
      "表情包数据解析失败: 没有找到匹配的表情包" ∧
    handledFailure
      (search_emoji defaultConfig "cat" (fun _ => FetchRes.ok payloadNoRes) 0) := by
  exact ⟨rfl, rfl, Or.inr (Or.inr (Or.inl ⟨"没有找到匹配的表情包", rfl⟩))⟩

/-- C1 (amended): when the upstream payload has code 200 and an empty res
list, `format_result` raises `ValueError` with the dedicated no-matches
message, and `search_emoji` catches it in its `(KeyError, ValueError)`
clause and returns the parse-failure string carrying that message; the
no-matches case is thus distinguished only by its message text, inside
the failure rendering, not as a separate non-error outcome. -/
theorem C1_empty_res (data : Payload) (r : Nat)
    (hc : data.code = some (JVal.jint 200)) (hres : data.res = some []) :
    format_result data r = Except.error (PyError.valueError "没有找到匹配的表情包") ∧
    ∀ (cfg : Config) (keyword : String) (upstream : Request → FetchRes),
      upstream (fetch_emoji_images cfg keyword 1 1) = FetchRes.ok data →
      search_emoji cfg keyword upstream r =
        "表情包数据解析失败: 没有找到匹配的表情包" := by
  constructor
  · simp [format_result, hc, hres]
  · intro cfg keyword upstream hup
    simp [search_emoji, hup, format_result, hc, hres, PyError.str]

/-- C1 witness: the amended theorem applied to a concrete empty-res
payload. -/
theorem C1_empty_res_witness :
    format_result payloadNoRes 1 =
      Except.error (PyError.valueError "没有找到匹配的表情包") ∧
    search_emoji defaultConfig "开心" (fun _ => FetchRes.ok payloadNoRes) 1 =
      "表情包数据解析失败: 没有找到匹配的表情包" := by
  have h := C1_empty_res payloadNoRes 1 rfl rfl
  exact ⟨h.1, h.2 defaultConfig "开心" _ rfl⟩

/-- C4: whenever the payload's code field is present but differs from the
integer 200, `format_result` raises `ValueError("API返回错误: " + msg)`
with the upstream message taken verbatim from the payload, and
`search_emoji` returns the parse-failure rendering that still carries the
upstream message verbatim as a suffix. -/
theorem C4_upstream_error (data : Payload) (r : Nat) (c : JVal) (m : String)
    (hc : data.code = some c) (hne : c ≠ JVal.jint 200) (hm : data.msg = some m) :
    format_result data r =
      Except.error (PyError.valueError ("API返回错误: " ++ m)) ∧
    ∀ (cfg : Config) (keyword : String) (upstream : Request → FetchRes),
      upstream (fetch_emoji_images cfg keyword 1 1) = FetchRes.ok data →
      search_emoji cfg keyword upstream r =
        "表情包数据解析失败: " ++ ("API返回错误: " ++ m) := by
  constructor
  · simp [format_result, hc, hne, hm]
  · intro cfg keyword upstream hup
    simp [search_emoji, hup, format_result, hc, hne, hm, PyError.str]

/-- C4 witness: a concrete code-400 payload with message "参数错误". -/
theorem C4_upstream_error_witness :
    format_result ⟨some (JVal.jint 400), some "参数错误", none, none, none, none⟩ 0 =
      Except.error (PyError.valueError ("API返回错误: " ++ "参数错误")) ∧
    search_emoji defaultConfig "hi"
      (fun _ => FetchRes.ok ⟨some (JVal.jint 400), some "参数错误", none, none, none, none⟩) 0 =
      "表情包数据解析失败: " ++ ("API返回错误: " ++ "参数错误") := by
  have h := C4_upstream_error
    ⟨some (JVal.jint 400), some "参数错误", none, none, none, none⟩ 0
    (JVal.jint 400) "参数错误" rfl (by decide) rfl
  exact ⟨h.1, h.2 defaultConfig "hi" _ rfl⟩

/-- C5 counterexample: with the two-URL payload and a requested count of 2
(2 ≥ the list length), the code's selection — `random.choice` inside
`format_result` — yields a single URL, not every URL once each: the
selected singleton differs from the full list, and the formatted output
embeds only "a.jpg" for draw 0. -/
theorem C5_cex :
    2 ≤ (["a.jpg", "b.jpg"] : List String).length ∧
    [randomChoice ["a.jpg", "b.jpg"] 0] ≠ ["a.jpg", "b.jpg"] ∧
    format_result payload2 0 =
      Except.ok "找到2个表情包，当前第1/1页\n随机选择一个: a.jpg" := by
  exact ⟨by decide, by decide, rfl⟩

/-- C5 (amended): selection is `random.choice`: it returns exactly one URL,
always an element of the list when the list is non-empty, and therefore
never returns all URLs once each when the list has at least two
elements, whatever count was requested; no deterministic first-N policy
exists in the code. -/
theorem C5_single_choice (l : List String) (r : Nat) :
    (l ≠ [] → randomChoice l r ∈ l) ∧
    (2 ≤ l.length → [randomChoice l r] ≠ l) := by
  constructor
  · exact randomChoice_mem l r
  · intro h2 heq
    have hlen : (1 : Nat) = l.length := by
      have := congrArg List.length heq
      simpa using this
    omega

/-- C5 witness: the amended theorem applied to the two-URL list. -/
theorem C5_single_choice_witness :
    randomChoice ["a.jpg", "b.jpg"] 0 ∈ (["a.jpg", "b.jpg"] : List String) ∧
    [randomChoice ["a.jpg", "b.jpg"] 0] ≠ ["a.jpg", "b.jpg"] := by
  have h := C5_single_choice ["a.jpg", "b.jpg"] 0
  exact ⟨h.1 (by decide), h.2 (by decide)⟩

/-- C10: whenever `format_result` succeeds, the payload's res list is
present and the URL embedded in the returned string (its final segment) is
an element of that list — the selected result is always drawn from the
upstream response. -/
theorem C10_url_from_res (data : Payload) (r : Nat) (s : String)
    (h : format_result data r = Except.ok s) :
    ∃ l, data.res = some l ∧ ∃ u, u ∈ l ∧ ∃ pre, s = pre ++ u := by
  obtain ⟨code, msg, page, maxpage, count, res⟩ := data
  cases code with
  | none => simp [format_result] at h
  | some c =>
    by_cases hc : c = JVal.jint 200
    · subst hc
      cases res with
      | none => simp [format_result] at h
      | some l =>
        cases l with
        | nil => simp [format_result] at h
        | cons a t =>
          cases count with
          | none => simp [format_result] at h
          | some cnt =>
            cases maxpage with
            | none => simp [format_result] at h
            | some mp =>
              cases page with
              | none => simp [format_result] at h
              | some pg =>
                simp only [format_result, ne_eq, not_true_eq_false, if_false,
                  List.isEmpty_cons, Bool.false_eq_true, Except.ok.injEq,
                  reduceIte] at h
                refine ⟨a :: t, rfl, randomChoice (a :: t) r,
                  randomChoice_mem (a :: t) r (by simp), ?_⟩
                exact ⟨"找到" ++ cnt.render ++ "个表情包，当前第" ++ pg.render ++
                  "/" ++ mp.render ++ "页\n随机选择一个: ", h.symm⟩
    · simp [format_result, hc] at h

/-- C10 witness: the theorem applied to the concrete two-result payload. -/
theorem C10_url_from_res_witness :
    ∃ l, payload2.res = some l ∧ ∃ u, u ∈ l ∧ ∃ pre,
      "找到2个表情包，当前第1/1页\n随机选择一个: a.jpg" = pre ++ u :=
  C10_url_from_res payload2 0 "找到2个表情包，当前第1/1页\n随机选择一个: a.jpg" rfl

/-- C2 counterexample: `get_emoji_image` is a top-level inbound operation,
yet on a transport failure of the byte fetch it does not return an outcome
value — it raises `ValueError` (modelled by `Except.error`), letting the
fault escape its boundary. -/
theorem C2_cex :
    get_emoji_image defaultConfig "http://example.com/a.jpg"
      (fun _ _ => GetRes.requestError "timed out") =
      Except.error ("无法下载图片: " ++ "timed out") := by
  rfl

/-- C2 (amended): `search_emoji` always returns a string — every upstream
behaviour either yields the `format_result` success string or one of the
four handled-failure renderings — while `get_emoji_image` returns the
fetched bytes only when the transport succeeds and otherwise raises
`ValueError` (an error, not a returned value). -/
theorem C2_boundary :
    (∀ (cfg : Config) (keyword : String) (upstream : Request → FetchRes) (r : Nat),
      (∃ data, upstream (fetch_emoji_images cfg keyword 1 1) = FetchRes.ok data ∧
        format_result data r = Except.ok (search_emoji cfg keyword upstream r)) ∨
      handledFailure (search_emoji cfg keyword upstream r)) ∧
    (∀ (cfg : Config) (url : String) (t : String → Int → GetRes),
      (∃ b, t url cfg.TIMEOUT = GetRes.ok b ∧
        get_emoji_image cfg url t = Except.ok b) ∨
      (∃ m, get_emoji_image cfg url t = Except.error m)) := by
  constructor
  · intro cfg keyword upstream r
    cases hup : upstream (fetch_emoji_images cfg keyword 1 1) with
    | ok data =>
      cases hfr : format_result data r with
      | ok s =>
        left
        refine ⟨data, rfl, ?_⟩
        have hs : search_emoji cfg keyword upstream r = s := by
          simp [search_emoji, hup, hfr]
        rw [hs, hfr]
      | error e =>
        right
        exact Or.inr (Or.inr (Or.inl ⟨e.str, by simp [search_emoji, hup, hfr]⟩))
    | requestError e =>
      right
      exact Or.inl ⟨e, by simp [search_emoji, hup]⟩
    | httpStatusError code =>
      right
      exact Or.inr (Or.inl ⟨toString code, by simp [search_emoji, hup]⟩)
    | decodeError e =>
      right
      exact Or.inr (Or.inr (Or.inl ⟨e, by simp [search_emoji, hup]⟩))
    | otherExc e =>
      right
      exact Or.inr (Or.inr (Or.inr ⟨e, by simp [search_emoji, hup]⟩))
  · intro cfg url t
    cases ht : t url cfg.TIMEOUT with
    | ok b => exact Or.inl ⟨b, rfl, by simp [get_emoji_image, ht]⟩
    | requestError e =>
      exact Or.inr ⟨"无法下载图片: " ++ e, by simp [get_emoji_image, ht]⟩
    | httpStatusError code =>
      exact Or.inr ⟨"图片下载失败，HTTP状态码: " ++ toString code,
        by simp [get_emoji_image, ht]⟩
    | otherExc e =>
      exact Or.inr ⟨"图片下载发生未知错误: " ++ e, by simp [get_emoji_image, ht]⟩

/-- C3 counterexample: request construction performs no validation — for
the empty keyword it succeeds and produces a complete request (with an
empty words parameter), and a 101-character keyword is likewise accepted
with its words parameter passed through; neither fails with InvalidInput. -/
theorem C3_cex :
    fetch_emoji_images defaultConfig "" 1 1 =
      { method := Method.post
        url := "https://cn.apihz.cn/api/img/apihzbqbbaidu.php"
        queryParams := [("id", "88888888"), ("key", "88888888"), ("words", ""),
                        ("limit", "1"), ("page", "1")]
        formData := []
        timeout := 10 } ∧
    paramValue (fetch_emoji_images defaultConfig k101 1 1) "words" = some k101 ∧
    k101.length = 101 := by
  refine ⟨by decide, by decide, by decide⟩

/-- C3 (amended): `fetch_emoji_images` is total and validates nothing:
for every configuration, keyword (of any length, empty or not), limit and
page it constructs a request with the five parameters id, key, words,
limit, page aimed at the configured URL and timeout; no InvalidInput
failure path exists. -/
theorem C3_no_validation (cfg : Config) (keyword : String) (limit page : Int) :
    (fetch_emoji_images cfg keyword limit page).queryParams.map Prod.fst =
      ["id", "key", "words", "limit", "page"] ∧
    (fetch_emoji_images cfg keyword limit page).url = cfg.API_URL ∧
    (fetch_emoji_images cfg keyword limit page).timeout = cfg.TIMEOUT := by
  exact ⟨rfl, rfl, rfl⟩

/-- C6 counterexample: a code-200 payload with a non-empty res list but no
count key does not have its pagination defaulted — `format_result` raises
`KeyError("count")` and the whole response fails. -/
theorem C6_cex :
    format_result ⟨some (JVal.jint 200), some "ok", some (JVal.jint 1),
      some (JVal.jint 1), none, some ["a.jpg"]⟩ 0 =
      Except.error (PyError.keyError "count") := by
  rfl

/-- C6 (amended): pagination fields are read by direct subscription with
no coercion and no defaults: an absent count, maxpage or page key makes
`format_result` raise the corresponding `KeyError` (failing the whole
response), while string-typed values present under those keys are
interpolated verbatim into the success string rather than coerced to
integers. -/
theorem C6_pagination_strict :
    (∀ (msg : Option String) (pg mp : Option JVal) (l : List String) (r : Nat),
      l ≠ [] →
      format_result ⟨some (JVal.jint 200), msg, pg, mp, none, some l⟩ r =
        Except.error (PyError.keyError "count")) ∧
    (∀ (msg : Option String) (pg : Option JVal) (cnt : JVal) (l : List String) (r : Nat),
      l ≠ [] →
      format_result ⟨some (JVal.jint 200), msg, pg, none, some cnt, some l⟩ r =
        Except.error (PyError.keyError "maxpage")) ∧
    (∀ (msg : Option String) (mp cnt : JVal) (l : List String) (r : Nat),
      l ≠ [] →
      format_result ⟨some (JVal.jint 200), msg, none, some mp, some cnt, some l⟩ r =
        Except.error (PyError.keyError "page")) ∧
    (∀ (msg : Option String) (r : Nat),
      format_result ⟨some (JVal.jint 200), msg, some (JVal.jstr "one"),
        some (JVal.jstr "two"), some (JVal.jstr "three"), some ["a.jpg"]⟩ r =
        Except.ok ("找到" ++ "three" ++ "个表情包，当前第" ++ "one" ++ "/" ++
          "two" ++ "页\n随机选择一个: " ++ randomChoice ["a.jpg"] r)) := by
  refine ⟨?_, ?_, ?_, ?_⟩
  · intro msg pg mp l r hl
    cases l with
    | nil => exact absurd rfl hl
    | cons a t => simp [format_result]
  · intro msg pg cnt l r hl
    cases l with
    | nil => exact absurd rfl hl
    | cons a t => simp [format_result]
  · intro msg mp cnt l r hl
    cases l with
    | nil => exact absurd rfl hl
    | cons a t => simp [format_result]
  · intro msg r
    simp [format_result, JVal.render]

/-- C6 witness: the amended theorem applied at concrete inputs. -/
theorem C6_pagination_strict_witness :
    format_result ⟨some (JVal.jint 200), some "ok", some (JVal.jint 1),
      some (JVal.jint 1), none, some ["b.jpg"]⟩ 3 =
      Except.error (PyError.keyError "count") ∧
    format_result ⟨some (JVal.jint 200), some "ok", some (JVal.jint 1), none,
      some (JVal.jint 1), some ["b.jpg"]⟩ 3 =
      Except.error (PyError.keyError "maxpage") ∧
    format_result ⟨some (JVal.jint 200), some "ok", none, some (JVal.jint 1),
      some (JVal.jint 1), some ["b.jpg"]⟩ 3 =
      Except.error (PyError.keyError "page") := by
  have h := C6_pagination_strict
  exact ⟨h.1 (some "ok") (some (JVal.jint 1)) (some (JVal.jint 1)) ["b.jpg"] 3 (by decide),
    h.2.1 (some "ok") (some (JVal.jint 1)) (JVal.jint 1) ["b.jpg"] 3 (by decide),
    h.2.2.1 (some "ok") (JVal.jint 1) (JVal.jint 1) ["b.jpg"] 3 (by decide)⟩

/-- C7 counterexample: the search call sends POST with query parameters
for the default configuration — the method is never GET and no
form-encoded body is attached; there is no configured transport mode. -/
theorem C7_cex :
    (fetch_emoji_images defaultConfig "hi" 1 1).method = Method.post ∧
    (fetch_emoji_images defaultConfig "hi" 1 1).method ≠ Method.get ∧
    (fetch_emoji_images defaultConfig "hi" 1 1).formData = [] := by
  exact ⟨rfl, by decide, rfl⟩

/-- C7 (amended): for every configuration the search call uses exactly one
transport: POST with the parameters as query parameters and an empty form
body; no GET mode exists and nothing in the configuration selects a
method. -/
theorem C7_always_post (cfg : Config) (keyword : String) (limit page : Int) :
    (fetch_emoji_images cfg keyword limit page).method = Method.post ∧
    (fetch_emoji_images cfg keyword limit page).formData = [] := by
  exact ⟨rfl, rfl⟩

/-- C8 counterexample: with an empty extra keyword, the words value placed
in the request for the keyword "a b" is the percent-encoded "a%20b", not
the plain string "a b" — URL-encoding is applied by `quote` before the
request is handed to the transport. -/
theorem C8_cex :
    paramValue (fetch_emoji_images defaultConfig "a b" 1 1) "words" =
      some "a%20b" ∧
    "a%20b" ≠ "a b" := by
  exact ⟨by decide, by decide⟩

/-- C8 (amended): for every configuration and keyword, the words value of
the constructed request is `quote((keyword + " " + extraKeyword).strip())`:
the extra keyword is always appended with a space and the result trimmed
(so an empty extra keyword leaves the trimmed keyword), and the value is
percent-encoded by `quote` before transport, not plain. -/
theorem C8_words_quoted (cfg : Config) (keyword : String) (limit page : Int) :
    paramValue (fetch_emoji_images cfg keyword limit page) "words" =
      some (quote (pyStrip (keyword ++ " " ++ cfg.EXTRA_KEYWORD))) := by
  rfl

/-- C9 counterexample: when the byte fetch for an already-resolved URL
times out, `get_emoji_image` does not return a partial-failure value — it
raises `ValueError` (modelled by `Except.error`) whose message reports the
download failure. -/
theorem C9_cex :
    get_emoji_image defaultConfig "https://img.example/a.jpg"
      (fun _ _ => GetRes.requestError "ReadTimeout") =
      Except.error ("无法下载图片: " ++ "ReadTimeout") := by
  rfl

/-- C9 (amended): on a transport failure of the byte fetch,
`get_emoji_image` raises `ValueError("无法下载图片: …")` — a
download-specific message distinct from the search failure renderings —
instead of returning a partial-failure value; the URL obtained from the
earlier `search_emoji` call is unaffected because the two operations are
separate calls. -/
theorem C9_byte_fetch_raises (cfg : Config) (url : String)
    (t : String → Int → GetRes) (e : String)
    (ht : t url cfg.TIMEOUT = GetRes.requestError e) :
    get_emoji_image cfg url t = Except.error ("无法下载图片: " ++ e) := by
  simp [get_emoji_image, ht]

/-- C9 witness: the amended theorem applied to a concrete timed-out
transport. -/
theorem C9_byte_fetch_raises_witness :
    get_emoji_image defaultConfig "https://img.example/b.jpg"
      (fun _ _ => GetRes.requestError "timeout") =
      Except.error ("无法下载图片: " ++ "timeout") :=
  C9_byte_fetch_raises defaultConfig "https://img.example/b.jpg"
    (fun _ _ => GetRes.requestError "timeout") "timeout" rfl
